import Mathlib

/-!
Shallow embedding of the Privax repository core:

* `MerkleTree.*`, `generateCommitment`, `generateNullifierHash` transcribe
  `src/circuits/utils/merkleTree.js` (identical algorithm to the TypeScript
  twin `src/unnamed/part_002`; the `.js` file indexes the `zeros` promise
  directly, the `.ts` file awaits it — the awaited zero table is modelled).
* `merkleFold`, `withdrawCircuitOk`, `circuitCommitment`, `circuitNullifierHash`
  transcribe the constraint system of `src/circuits/circuits/withdraw.circom`.
* `PrivaxProtocol.deposit` / `PrivaxProtocol.withdraw` transcribe the Solidity
  contract in `src/unnamed/part_000`; a `require` failure is an EVM revert, so
  every error branch returns the caller's original balance map.
* `ZkSystem.deposit` / `ZkSystem.withdraw` transcribe the off-chain flow in
  `src/unnamed/part_001` (module-level `deposits` map, `spentNullifiers` set).

The Poseidon hash comes from the external `circomlibjs` library; it is threaded
through every definition as abstract parameters `p2` (2-ary) and `p3` (3-ary).
Closed evaluations instantiate them with the injective stand-ins `cHash` and
`cHash3`; the evaluated divergences come from swapped argument order and wrong
table reads, which any injective hash exhibits exactly as Poseidon does.
Field elements, amounts and addresses are modelled as `Nat`.
-/

/-- State of the `MerkleTree` class of `src/circuits/utils/merkleTree.js`:
`levels`, the dense `leaves` array (length `capacity = 2 ^ levels`), and the
fill pointer `filled`. -/
structure MerkleTree where
  levels : Nat
  leaves : List Nat
  filled : Nat
deriving DecidableEq

/-- The constructor `new MerkleTree(levels)`: `capacity = 2 ** levels` leaves,
all initialised to `0n`, `filled = 0`. -/
def MerkleTree.new (levels : Nat) : MerkleTree :=
  ⟨levels, List.replicate (2 ^ levels) 0, 0⟩

/-- `this.capacity` as set by the constructor. -/
def MerkleTree.capacity (t : MerkleTree) : Nat := 2 ^ t.levels

/-- `_calculateZeros`: `zeros[0] = 0`, `zeros[i] = H(zeros[i-1], zeros[i-1])`. -/
def calculateZeros (p2 : Nat → Nat → Nat) : Nat → Nat
  | 0 => 0
  | i + 1 => p2 (calculateZeros p2 i) (calculateZeros p2 i)

/-- `MerkleTree.insert(commitment)`: throws `'Tree is full'` when
`filled >= capacity`, otherwise writes at position `filled`, increments the
fill pointer and returns the pre-increment position. -/
def MerkleTree.insert (t : MerkleTree) (commitment : Nat) : Except String (MerkleTree × Nat) :=
  if t.capacity ≤ t.filled then .error "Tree is full"
  else .ok (⟨t.levels, t.leaves.set t.filled commitment, t.filled + 1⟩, t.filled)

/-- The level loop of `MerkleTree.generateProof`: for each level,
`isRight = currentIndex % 2`, the sibling index is the neighbour, the pushed
direction bit is `isRight ? 0 : 1`, and the pushed element is
`leaves[siblingIndex]` when `siblingIndex < filled` else `zeros[level]`
(note: the code reads the flat `leaves` array at every level). -/
def generateProofLoop (p2 : Nat → Nat → Nat) (leaves : List Nat) (filled : Nat) :
    Nat → Nat → Nat → List Nat × List Nat
  | _, 0, _ => ([], [])
  | level, fuel + 1, currentIndex =>
    let isRight := currentIndex % 2
    let siblingIndex := if isRight = 1 then currentIndex - 1 else currentIndex + 1
    let sibling := if siblingIndex < filled then leaves.getD siblingIndex 0
                   else calculateZeros p2 level
    let rest := generateProofLoop p2 leaves filled (level + 1) fuel (currentIndex / 2)
    (sibling :: rest.1, (if isRight = 1 then 0 else 1) :: rest.2)

/-- `MerkleTree.generateProof(index)`: throws `'Leaf does not exist'` when
`index >= filled`, otherwise runs the level loop for `levels` iterations and
returns `(pathElements, pathIndices)`. -/
def MerkleTree.generateProof (p2 : Nat → Nat → Nat) (t : MerkleTree) (index : Nat) :
    Except String (List Nat × List Nat) :=
  if t.filled ≤ index then .error "Leaf does not exist"
  else .ok (generateProofLoop p2 t.leaves t.filled 0 t.levels index)

/-- One level of `MerkleTree.getRoot`: parent `i` hashes children `2i, 2i+1`,
substituting `zeros[level]` for a child position `>= filled` (the code compares
every level's node index against the leaf-level fill pointer). -/
def hashLevel (p2 : Nat → Nat → Nat) (filled zeroLevel : Nat) (prev : List Nat) : List Nat :=
  (List.range (prev.length / 2)).map fun i =>
    p2 (if 2 * i < filled then prev.getD (2 * i) 0 else zeroLevel)
       (if 2 * i + 1 < filled then prev.getD (2 * i + 1) 0 else zeroLevel)

/-- The outer level loop of `MerkleTree.getRoot`, levels `0 .. levels - 1`. -/
def getRootLoop (p2 : Nat → Nat → Nat) (filled : Nat) : Nat → Nat → List Nat → List Nat
  | _, 0, cur => cur
  | level, fuel + 1, cur =>
    getRootLoop p2 filled (level + 1) fuel (hashLevel p2 filled (calculateZeros p2 level) cur)

/-- `MerkleTree.getRoot()`: `zeros[levels]` for an empty tree, otherwise the
full level-by-level refold of the dense leaf array. -/
def MerkleTree.getRoot (p2 : Nat → Nat → Nat) (t : MerkleTree) : Nat :=
  if t.filled = 0 then calculateZeros p2 t.levels
  else (getRootLoop p2 t.filled 0 t.levels t.leaves).headD 0

/-- `generateCommitment(amount, secret, nullifierSecret) = poseidonHash([amount, secret, nullifierSecret])`. -/
def generateCommitment (p3 : Nat → Nat → Nat → Nat) (amount secret nullifierSecret : Nat) : Nat :=
  p3 amount secret nullifierSecret

/-- `generateNullifierHash(nullifierSecret) = poseidonHash([nullifierSecret, '1'])`. -/
def generateNullifierHash (p2 : Nat → Nat → Nat) (nullifierSecret : Nat) : Nat :=
  p2 nullifierSecret 1

/-- The input signals of the `Withdraw(levels)` circom template
(`src/circuits/circuits/withdraw.circom`): private `secret`, `nullifierSecret`,
`pathElements`, `pathIndices`; public `merkleRoot`, `nullifierHash`,
`recipient`, `amount`, `externalNullifier`. -/
structure WithdrawInput where
  secret : Nat
  nullifierSecret : Nat
  pathElements : List Nat
  pathIndices : List Nat
  merkleRoot : Nat
  nullifierHash : Nat
  recipient : Nat
  amount : Nat
  externalNullifier : Nat
deriving DecidableEq

/-- The circuit's `calculatedCommitment <== Poseidon(3)(amount, secret, nullifierSecret)`. -/
def circuitCommitment (p3 : Nat → Nat → Nat → Nat) (amount secret nullifierSecret : Nat) : Nat :=
  p3 amount secret nullifierSecret

/-- The circuit's `calculatedNullifierHash <== Poseidon(2)(nullifierSecret, 1)`
with the fixed domain separator `1`. -/
def circuitNullifierHash (p2 : Nat → Nat → Nat) (nullifierSecret : Nat) : Nat :=
  p2 nullifierSecret 1

/-- The circuit's Merkle loop: with `b = pathIndices[i]` constrained to
`{0, 1}`, `left = (1-b)*cur + b*elt` and `right = b*cur + (1-b)*elt`, i.e.
bit `0` places the current hash on the left and the path element on the right,
bit `1` the other way round. -/
def merkleFold (p2 : Nat → Nat → Nat) : Nat → List (Nat × Nat) → Nat
  | cur, [] => cur
  | cur, (elt, bit) :: rest =>
    merkleFold p2 (p2 (if bit = 0 then cur else elt) (if bit = 0 then elt else cur)) rest

/-- The full constraint system of `Withdraw(levels)`: fixed-size path arrays,
binary direction bits, the nullifier-hash equation, and the Merkle fold from
the recomputed commitment ending at `merkleRoot`. `recipient`, `amount` and
`externalNullifier` are public inputs; beyond `amount` feeding the commitment
hash, no further constraint mentions them (circuit lines 94-101). -/
def withdrawCircuitOk (p2 : Nat → Nat → Nat) (p3 : Nat → Nat → Nat → Nat)
    (levels : Nat) (inp : WithdrawInput) : Bool :=
  (inp.pathElements.length == levels) &&
  (inp.pathIndices.length == levels) &&
  inp.pathIndices.all (fun b => b == 0 || b == 1) &&
  (inp.nullifierHash == circuitNullifierHash p2 inp.nullifierSecret) &&
  (inp.merkleRoot ==
    merkleFold p2 (circuitCommitment p3 inp.amount inp.secret inp.nullifierSecret)
      (inp.pathElements.zip inp.pathIndices))

/-- ERC20 balance view: address to balance. -/
def Bal : Type := Nat → Nat

/-- The external ERC20 collaborator of `PrivaxProtocol`: its address and its
transfer behaviours. `none` models a reverting call; the behaviour is
otherwise arbitrary (the contract defends with balance-delta checks). The
first argument of each transfer is the calling `msg.sender`. -/
structure Token where
  addr : Nat
  transferFrom : Nat → Nat → Nat → Bal → Option Bal
  transfer : Nat → Nat → Nat → Bal → Option Bal

/-- The events emitted by `PrivaxProtocol` (deposit and withdrawal cases). -/
inductive Event where
  | DepositOccurred (user tokenAddress amount commitment : Nat)
  | WithdrawalOccurred (nullifierHash recipient tokenAddress amount : Nat)
deriving DecidableEq

/-- Groth16 proof components `_a`, `_b`, `_c` as passed to `withdraw`. -/
structure Groth16Proof where
  a : List Nat
  b : List (List Nat)
  c : List Nat

/-- `PrivaxProtocol.deposit(_amount, _commitment)` (part_000 lines 137-146):
`require(_amount > 0)`; read the contract's balance; `transferFrom` the caller;
require the balance grew by exactly `_amount`; emit
`DepositOccurred(msg.sender, address(token), _amount, _commitment)`.
Every failed `require` reverts, returning the original balances. -/
def PrivaxProtocol.deposit (tok : Token) (thisAddr sender amount commitment : Nat)
    (bal : Bal) : Bal × Except String Event :=
  if amount = 0 then (bal, .error "Privax: Deposit amount must be greater than zero")
  else
    match tok.transferFrom sender thisAddr amount bal with
    | none => (bal, .error "Privax: token transferFrom reverted")
    | some bal1 =>
      if bal1 thisAddr = bal thisAddr + amount then
        (bal1, .ok (.DepositOccurred sender tok.addr amount commitment))
      else (bal, .error "Privax: Token transfer failed or incorrect amount")

/-- `PrivaxProtocol.withdraw(_a, _b, _c, _publicInputs, _recipient, _amountToWithdraw)`
(part_000 lines 162-193): requires positive amount, nonzero recipient, exactly
5 public inputs, `uint256(uint160(_recipient)) == _publicInputs[2]` (an address
is 160 bits, so the cast is the identity), `_amountToWithdraw == _publicInputs[3]`;
calls the external verifier; on success reads `nullifierHash = _publicInputs[1]`,
transfers to the recipient with a balance-delta check, and emits
`WithdrawalOccurred`. `verify` is the opaque `IVerifier.verifyProof` oracle.
The contract holds no Merkle root and no nullifier set. -/
def PrivaxProtocol.withdraw (tok : Token) (verify : Groth16Proof → List Nat → Bool)
    (thisAddr : Nat) (prf : Groth16Proof) (publicInputs : List Nat)
    (recipient amountToWithdraw : Nat) (bal : Bal) : Bal × Except String Event :=
  if amountToWithdraw = 0 then
    (bal, .error "Privax: Withdrawal amount must be greater than zero")
  else if recipient = 0 then
    (bal, .error "Privax: Recipient cannot be the zero address")
  else if publicInputs.length = 5 then
    if recipient = publicInputs.getD 2 0 then
      if amountToWithdraw = publicInputs.getD 3 0 then
        if verify prf publicInputs then
          let nullifierHash := publicInputs.getD 1 0
          let initialRecipientBalance := bal recipient
          match tok.transfer thisAddr recipient amountToWithdraw bal with
          | none => (bal, .error "Privax: token transfer reverted")
          | some bal1 =>
            if bal1 recipient = initialRecipientBalance + amountToWithdraw then
              (bal1, .ok (.WithdrawalOccurred nullifierHash recipient tok.addr amountToWithdraw))
            else (bal, .error "Privax: Token transfer failed or incorrect amount")
        else (bal, .error "Privax: Invalid ZK proof")
      else (bal, .error "Privax: Amount mismatch in proof inputs")
    else (bal, .error "Privax: Recipient mismatch in proof inputs")
  else (bal, .error "Privax: Incorrect number of public inputs")

/-- A deposit record of part_001 lines 49-57: the module-level `deposits` map
stores, keyed by commitment, the index, amount, both secrets, the nullifier
hash, the recipient and a timestamp. -/
structure DepositRecord where
  index : Nat
  amount : Nat
  secret : Nat
  nullifierSecret : Nat
  nullifierHash : Nat
  recipient : Nat
  timestamp : Nat
deriving DecidableEq

/-- The value returned by the part_001 `deposit` function. -/
structure DepositReturn where
  commitment : Nat
  nullifierHash : Nat
  secret : Nat
  nullifierSecret : Nat
  index : Nat
deriving DecidableEq

/-- The module-level mutable state of part_001: the `deposits` map, the
`spentNullifiers` set and the commitment `merkleTree`. -/
structure SystemState where
  deposits : List (Nat × DepositRecord)
  spentNullifiers : List Nat
  tree : MerkleTree
deriving DecidableEq

/-- `deposit(amount, userAddress)` of part_001 lines 34-76. The randomly
sampled `secret` and `nullifierSecret` and the wall-clock timestamp are inputs
of the model. The commitment is inserted into the tree and the full deposit
record — including both secrets — is stored in the `deposits` map. -/
def ZkSystem.deposit (p2 : Nat → Nat → Nat) (p3 : Nat → Nat → Nat → Nat)
    (amount userAddress secret nullifierSecret now : Nat) (st : SystemState) :
    Except String (SystemState × DepositReturn) :=
  let commitment := generateCommitment p3 amount secret nullifierSecret
  match st.tree.insert commitment with
  | .error e => .error e
  | .ok (tree1, index) =>
    let nullifierHash := generateNullifierHash p2 nullifierSecret
    let entry : DepositRecord :=
      ⟨index, amount, secret, nullifierSecret, nullifierHash, userAddress, now⟩
    .ok (⟨(commitment, entry) :: st.deposits, st.spentNullifiers, tree1⟩,
         ⟨commitment, nullifierHash, secret, nullifierSecret, index⟩)

/-- `withdraw(nullifierHash, proof, publicSignals)` of part_001 lines 140-175:
reject if the caller-supplied `nullifierHash` is already spent; verify the
proof through the opaque snarkjs verifier (modelled as `verify` applied to the
public signals); mark the nullifier spent; return
`(publicSignals[3], publicSignals[2])` as `(amount, recipient)`.
No comparison of `publicSignals[0]` with the tree root is performed. -/
def ZkSystem.withdraw (verify : List Nat → Bool) (nullifierHash : Nat)
    (publicSignals : List Nat) (st : SystemState) :
    Except String (SystemState × Nat × Nat) :=
  if nullifierHash ∈ st.spentNullifiers then .error "Deposit already withdrawn"
  else if verify publicSignals then
    .ok (⟨st.deposits, nullifierHash :: st.spentNullifiers, st.tree⟩,
         publicSignals.getD 3 0, publicSignals.getD 2 0)
  else .error "Invalid proof"

/-- Injective 2-ary stand-in for the external Poseidon primitive, used to
evaluate closed instances. -/
def cHash (a b : Nat) : Nat := 2 ^ a * 3 ^ b

/-- Injective 3-ary stand-in for the external Poseidon primitive. -/
def cHash3 (a b c : Nat) : Nat := 2 ^ a * 3 ^ b * 5 ^ c

/-- A standard ERC20 token at a given address: moving funds requires a
sufficient source balance, else the call reverts. -/
def erc20 (tokenAddr : Nat) : Token :=
  ⟨tokenAddr,
   fun src dst amt b =>
     if amt ≤ b src then
       some (fun x =>
         if x = dst then (if dst = src then b src else b dst + amt)
         else if x = src then b src - amt else b x)
     else none,
   fun src dst amt b =>
     if amt ≤ b src then
       some (fun x =>
         if x = dst then (if dst = src then b src else b dst + amt)
         else if x = src then b src - amt else b x)
     else none⟩

/-- Verifier oracle that accepts every proof (the behaviour of `MockVerifier`
with its default `_verificationResult = true`). -/
def alwaysTrueVerifier : Groth16Proof → List Nat → Bool := fun _ _ => true

/-- Empty Groth16 proof payload used in closed evaluations. -/
def emptyProof : Groth16Proof := ⟨[], [], []⟩

/-- Concrete balances: the contract (address 50) escrows 100, the depositor
(address 4) holds 1000, everyone else 0. -/
def demoBal : Bal := fun a => if a = 50 then 100 else if a = 4 then 1000 else 0

/-- Concrete public inputs `[root, nullifierHash, recipient, amount, externalNullifier]`. -/
def thePubs : List Nat := [9, 7, 5, 10, 3]

/-- A fresh part_001 system with a depth-2 commitment tree. -/
def freshSystem : SystemState := ⟨[], [], MerkleTree.new 2⟩

/-- Depth-2 tree holding the single commitment `2` at index 0. -/
def oneLeafTree : MerkleTree := ⟨2, [2, 0, 0, 0], 1⟩

/-- Depth-2 tree holding commitments `5, 7, 11` at indices 0, 1, 2. -/
def threeLeafTree : MerkleTree := ⟨2, [5, 7, 11, 0], 3⟩

/-- C1: the claim states that after `withdraw` succeeds for a nullifierHash,
every later `withdraw` presenting the same nullifierHash fails with
`NullifierSpent`, leaving escrow, root and nullifier set unchanged. The
on-chain ledger (`PrivaxProtocol`) keeps no nullifier set at all: with the
verifier oracle accepting, a second withdraw presenting the same nullifierHash
`7` succeeds again and pays out again — escrow drops 100 → 90 → 80 and the
recipient receives 10 twice. Only the off-chain part_001 flow rejects a spent
nullifier (last conjunct), and it holds no escrow or root. -/
theorem C1_double_withdraw_succeeds_on_chain :
    (PrivaxProtocol.withdraw (erc20 1) alwaysTrueVerifier 50 emptyProof thePubs 5 10 demoBal).2
      = .ok (.WithdrawalOccurred 7 5 1 10) ∧
    (PrivaxProtocol.withdraw (erc20 1) alwaysTrueVerifier 50 emptyProof thePubs 5 10
        (PrivaxProtocol.withdraw (erc20 1) alwaysTrueVerifier 50 emptyProof thePubs 5 10 demoBal).1).2
      = .ok (.WithdrawalOccurred 7 5 1 10) ∧
    (PrivaxProtocol.withdraw (erc20 1) alwaysTrueVerifier 50 emptyProof thePubs 5 10
        (PrivaxProtocol.withdraw (erc20 1) alwaysTrueVerifier 50 emptyProof thePubs 5 10 demoBal).1).1 50 = 80 ∧
    (PrivaxProtocol.withdraw (erc20 1) alwaysTrueVerifier 50 emptyProof thePubs 5 10
        (PrivaxProtocol.withdraw (erc20 1) alwaysTrueVerifier 50 emptyProof thePubs 5 10 demoBal).1).1 5 = 20 ∧
    ZkSystem.withdraw (fun _ => true) 7 thePubs ⟨[], [7], MerkleTree.new 2⟩
      = .error "Deposit already withdrawn" :=
  ⟨rfl, rfl, rfl, rfl, rfl⟩

/-- C2: the claim states that `withdraw` requires `publicInputs[0]` to equal
the ledger's `currentRoot` and rejects stale roots with `RootMismatch`. No
component stores a current root or ever reads `publicInputs[0]`: the on-chain
withdraw succeeds unchanged for two different root entries (`111` and `222`),
and the off-chain part_001 withdraw likewise accepts an arbitrary root entry
on a fresh system whose tree root is not `111`. No `RootMismatch` path exists. -/
theorem C2_no_root_check :
    (PrivaxProtocol.withdraw (erc20 1) alwaysTrueVerifier 50 emptyProof [111, 7, 5, 10, 3] 5 10 demoBal).2
      = .ok (.WithdrawalOccurred 7 5 1 10) ∧
    (PrivaxProtocol.withdraw (erc20 1) alwaysTrueVerifier 50 emptyProof [222, 7, 5, 10, 3] 5 10 demoBal).2
      = .ok (.WithdrawalOccurred 7 5 1 10) ∧
    ZkSystem.withdraw (fun _ => true) 7 [111, 7, 5, 10, 3] freshSystem
      = .ok (⟨[], [7], MerkleTree.new 2⟩, 10, 5) ∧
    MerkleTree.getRoot cHash freshSystem.tree ≠ 111 :=
  ⟨rfl, rfl, rfl, by decide⟩

/-- C3: the claim states that a note's `secret` and `nullifierSecret` are held
only by the depositor and that no system-owned state contains them after
`deposit` returns. The part_001 `deposit` stores both secrets in the
module-level `deposits` map: depositing amount 5 with secret 7 and nullifier
secret 11 leaves a record keyed by the commitment whose `secret` field is 7
and whose `nullifierSecret` field is 11. -/
theorem C3_secrets_persisted_by_deposit_store :
    ((ZkSystem.deposit cHash cHash3 5 77 7 11 0 freshSystem).map
        fun p => p.1.deposits.lookup (generateCommitment cHash3 5 7 11))
      = .ok (some ⟨0, 5, 7, 11, generateNullifierHash cHash 11, 77, 0⟩) :=
  rfl

/-- C4: the claim states that folding a leaf's commitment up the sibling path
returned by `generateProof(index)`, using the returned direction bits with the
circuit's convention (bit 0 = current node on the left), reproduces
`getRoot()`. It fails already for the first leaf of a depth-2 tree: inserting
commitment 2 yields `generateProof(0) = ([z0, z1], [1, 1])`, the direction
bits are inverted (a left child gets bit 1), so the circuit fold hashes in
swapped argument order and produces 39366 while `getRoot()` is 48. -/
theorem C4_round_trip_fails :
    MerkleTree.insert (MerkleTree.new 2) 2 = .ok (oneLeafTree, 0) ∧
    MerkleTree.generateProof cHash oneLeafTree 0 = .ok ([0, 1], [1, 1]) ∧
    merkleFold cHash 2 (List.zip [0, 1] [1, 1]) = 39366 ∧
    MerkleTree.getRoot cHash oneLeafTree = 48 ∧
    (39366 : Nat) ≠ 48 :=
  ⟨rfl, rfl, rfl, rfl, by decide⟩

/-- C5: the claim states that `generateProof(index)` returns per level the
sibling node of that level (or the level's zero constant) together with a
direction bit that is 0 for a left child. On the depth-2 tree with leaves
`[5, 7, 11]`, `generateProof(0)` returns `([7, 7], [1, 1])`: the level-1 entry
is the leaf `7` read from the flat leaf array, whereas the actual level-1
sibling node is `H(11, 0) = 2048 ≠ 7`, and the direction bit for the left
child at each level is 1, not 0. The `UnknownLeaf` clause does hold: index 3
(`>= fillPointer = 3`) is rejected. -/
theorem C5_generateProof_deviates :
    MerkleTree.generateProof cHash threeLeafTree 0 = .ok ([7, 7], [1, 1]) ∧
    getRootLoop cHash 3 0 1 threeLeafTree.leaves = [69984, 2048] ∧
    cHash 11 0 = 2048 ∧
    (2048 : Nat) ≠ 7 ∧
    MerkleTree.generateProof cHash threeLeafTree 3 = .error "Leaf does not exist" :=
  ⟨rfl, rfl, rfl, by decide, rfl⟩

/-- Replace the `externalNullifier` signal of a circuit input, leaving every
other signal unchanged. -/
def setExternalNullifier (inp : WithdrawInput) (en : Nat) : WithdrawInput :=
  ⟨inp.secret, inp.nullifierSecret, inp.pathElements, inp.pathIndices, inp.merkleRoot,
   inp.nullifierHash, inp.recipient, inp.amount, en⟩

/-- C6: `withdraw` validates `publicInputs.length == 5` and that the
`recipient`/`amount` arguments equal `publicInputs[2]`/`publicInputs[3]`;
whenever the count is wrong or either binding fails, the call reverts —
returning the unchanged balance map and an error — before the verifier is
consulted and before any transfer. -/
theorem C6_withdraw_binding_checks (tok : Token) (verify : Groth16Proof → List Nat → Bool)
    (thisAddr : Nat) (prf : Groth16Proof) (pubs : List Nat) (recipient amount : Nat) (bal : Bal)
    (h : pubs.length ≠ 5 ∨ pubs.getD 2 0 ≠ recipient ∨ pubs.getD 3 0 ≠ amount) :
    ∃ msg, PrivaxProtocol.withdraw tok verify thisAddr prf pubs recipient amount bal
      = (bal, Except.error msg) := by
  unfold PrivaxProtocol.withdraw
  split
  · exact ⟨_, rfl⟩
  · split
    · exact ⟨_, rfl⟩
    · split
      · split
        · split
          · rename_i hlen hrec hamt
            rcases h with h | h | h
            · exact absurd hlen h
            · exact absurd hrec.symm h
            · exact absurd hamt.symm h
          · exact ⟨_, rfl⟩
        · exact ⟨_, rfl⟩
      · exact ⟨_, rfl⟩

/-- Witness for C6: proof bytes bound to recipient 100 are presented with
recipient argument 200; the call reverts with the balances untouched. -/
theorem C6_withdraw_binding_checks_witness :
    (([1, 2, 100, 10, 1] : List Nat).getD 2 0 ≠ 200) ∧
    ∃ msg, PrivaxProtocol.withdraw (erc20 1) alwaysTrueVerifier 50 emptyProof
        [1, 2, 100, 10, 1] 200 10 demoBal = (demoBal, Except.error msg) :=
  ⟨by decide,
   C6_withdraw_binding_checks (erc20 1) alwaysTrueVerifier 50 emptyProof
     [1, 2, 100, 10, 1] 200 10 demoBal (Or.inr (Or.inl (by decide)))⟩

/-- C7 counterexample: the claim says `deposit` delegates to
`CommitmentTree.insert`, updates `currentRoot`, and emits an event carrying the
new leaf index and new root. Two consecutive deposits of the same commitment
emit the one identical event `DepositOccurred(4, 1, 10, 77)` — were the event
carrying the new leaf index (0, then 1) or the new root, the two emissions
would differ. The contract performs no tree insertion and holds no root. -/
theorem C7_deposit_counterexample :
    (PrivaxProtocol.deposit (erc20 1) 50 4 10 77 demoBal).2
      = .ok (.DepositOccurred 4 1 10 77) ∧
    (PrivaxProtocol.deposit (erc20 1) 50 4 10 77
        (PrivaxProtocol.deposit (erc20 1) 50 4 10 77 demoBal).1).2
      = .ok (.DepositOccurred 4 1 10 77) :=
  ⟨rfl, rfl⟩

/-- C7 (amended): `deposit(amount, commitment)` fails with `InvalidAmount` when
`amount = 0`; otherwise it pulls funds through the token and verifies with a
before/after balance-delta check, failing with `TransferFailed` when the
contract's balance did not grow by exactly `amount` (and reverting when the
token call reverts); on success it emits
`DepositOccurred(depositor, tokenAddress, amount, commitment)`; every failure
reverts with no state change. It performs no tree insertion and tracks no
root. -/
theorem C7_deposit_behavior (tok : Token) (thisAddr sender amount commitment : Nat) (bal : Bal) :
    (amount = 0 →
      PrivaxProtocol.deposit tok thisAddr sender amount commitment bal
        = (bal, .error "Privax: Deposit amount must be greater than zero")) ∧
    (amount ≠ 0 → tok.transferFrom sender thisAddr amount bal = none →
      PrivaxProtocol.deposit tok thisAddr sender amount commitment bal
        = (bal, .error "Privax: token transferFrom reverted")) ∧
    (∀ bal1, amount ≠ 0 → tok.transferFrom sender thisAddr amount bal = some bal1 →
      bal1 thisAddr = bal thisAddr + amount →
      PrivaxProtocol.deposit tok thisAddr sender amount commitment bal
        = (bal1, .ok (.DepositOccurred sender tok.addr amount commitment))) ∧
    (∀ bal1, amount ≠ 0 → tok.transferFrom sender thisAddr amount bal = some bal1 →
      bal1 thisAddr ≠ bal thisAddr + amount →
      PrivaxProtocol.deposit tok thisAddr sender amount commitment bal
        = (bal, .error "Privax: Token transfer failed or incorrect amount")) := by
  refine ⟨?_, ?_, ?_, ?_⟩
  · intro ha
    unfold PrivaxProtocol.deposit
    rw [if_pos ha]
  · intro ha htf
    unfold PrivaxProtocol.deposit
    rw [if_neg ha, htf]
  · intro bal1 ha htf hd
    unfold PrivaxProtocol.deposit
    rw [if_neg ha, htf]
    simp only [if_pos hd]
  · intro bal1 ha htf hd
    unfold PrivaxProtocol.deposit
    rw [if_neg ha, htf]
    simp only [if_neg hd]

/-- Witness for C7: a zero-amount deposit reverts with `InvalidAmount`, and a
deposit whose token moves nothing into the contract (sender = contract, so the
balance delta is 0 ≠ 10) reverts with `TransferFailed`. -/
theorem C7_deposit_behavior_witness :
    ((0 : Nat) = 0 ∧
      PrivaxProtocol.deposit (erc20 1) 50 4 0 77 demoBal
        = (demoBal, .error "Privax: Deposit amount must be greater than zero")) ∧
    ((10 : Nat) ≠ 0 ∧
      PrivaxProtocol.deposit (erc20 1) 50 50 10 77 demoBal
        = (demoBal, .error "Privax: Token transfer failed or incorrect amount")) :=
  ⟨⟨rfl, (C7_deposit_behavior (erc20 1) 50 4 0 77 demoBal).1 rfl⟩,
   ⟨by decide, (C7_deposit_behavior (erc20 1) 50 50 10 77 demoBal).2.2.2 _ (by decide) rfl (by decide)⟩⟩

/-- C8: the tree-side note functions and the circuit compute identical hash
relations — `generateCommitment` is the circuit's Poseidon-3 commitment with
the same argument order `(amount, secret, nullifierSecret)`, and
`generateNullifierHash` is the circuit's Poseidon-2 nullifier hash with the
same fixed domain tag `1` — for any interpretation of the Poseidon primitive. -/
theorem C8_hash_relations_agree (p2 : Nat → Nat → Nat) (p3 : Nat → Nat → Nat → Nat) :
    (∀ amount secret nullifierSecret,
      generateCommitment p3 amount secret nullifierSecret
        = circuitCommitment p3 amount secret nullifierSecret) ∧
    (∀ nullifierSecret,
      generateNullifierHash p2 nullifierSecret = circuitNullifierHash p2 nullifierSecret) :=
  ⟨fun _ _ _ => rfl, fun _ => rfl⟩

/-- C9: while `fillPointer < capacity = 2 ^ levels`, `insert` appends the
commitment at position `fillPointer`, increments the pointer, and returns the
pre-increment pointer as the leaf index; once `fillPointer` has reached the
capacity (as after `2 ^ D` successful inserts), the next insert fails with
`TreeFull` and, the failure being raised before any write, leaves, fill
pointer and root are those of the unchanged tree. -/
theorem C9_insert_behavior (t : MerkleTree) (c : Nat) :
    (t.filled < 2 ^ t.levels →
      MerkleTree.insert t c
        = .ok (⟨t.levels, t.leaves.set t.filled c, t.filled + 1⟩, t.filled)) ∧
    (2 ^ t.levels ≤ t.filled → MerkleTree.insert t c = .error "Tree is full") := by
  constructor
  · intro h
    unfold MerkleTree.insert MerkleTree.capacity
    rw [if_neg (by omega)]
  · intro h
    unfold MerkleTree.insert MerkleTree.capacity
    rw [if_pos h]

/-- Witness for C9: inserting into a fresh depth-1 tree appends at index 0;
inserting into a full depth-1 tree (2 leaves) fails with `Tree is full`. -/
theorem C9_insert_behavior_witness :
    ((MerkleTree.new 1).filled < 2 ^ (MerkleTree.new 1).levels ∧
      MerkleTree.insert (MerkleTree.new 1) 5 = .ok (⟨1, [5, 0], 1⟩, 0)) ∧
    ((2 : Nat) ^ 1 ≤ 2 ∧ MerkleTree.insert ⟨1, [5, 7], 2⟩ 9 = .error "Tree is full") :=
  ⟨⟨by decide, (C9_insert_behavior (MerkleTree.new 1) 5).1 (by decide)⟩,
   ⟨by decide, (C9_insert_behavior ⟨1, [5, 7], 2⟩ 9).2 (by decide)⟩⟩

/-- C10: the ledger's `withdraw` never reads `publicInputs[4]`: two calls whose
public-input vectors agree in length and at indices 1, 2, 3 and on the
verifier's verdict produce identical outcomes (state and event); and the
circuit places no constraint on `externalNullifier` beyond declaring it, so
replacing it leaves the constraint system's verdict unchanged. -/
theorem C10_external_nullifier_unread (tok : Token) (verify : Groth16Proof → List Nat → Bool)
    (thisAddr : Nat) (prf : Groth16Proof) (pubs1 pubs2 : List Nat)
    (recipient amount : Nat) (bal : Bal)
    (p2 : Nat → Nat → Nat) (p3 : Nat → Nat → Nat → Nat) (levels : Nat)
    (inp : WithdrawInput) (en : Nat)
    (hlen : pubs1.length = pubs2.length)
    (h1 : pubs1.getD 1 0 = pubs2.getD 1 0)
    (h2 : pubs1.getD 2 0 = pubs2.getD 2 0)
    (h3 : pubs1.getD 3 0 = pubs2.getD 3 0)
    (hver : verify prf pubs1 = verify prf pubs2) :
    PrivaxProtocol.withdraw tok verify thisAddr prf pubs1 recipient amount bal
      = PrivaxProtocol.withdraw tok verify thisAddr prf pubs2 recipient amount bal ∧
    withdrawCircuitOk p2 p3 levels (setExternalNullifier inp en)
      = withdrawCircuitOk p2 p3 levels inp := by
  constructor
  · unfold PrivaxProtocol.withdraw
    rw [hlen, h1, h2, h3, hver]
  · rfl

/-- Witness for C10: two concrete withdraw calls differing only in the
external-nullifier entry (1 vs 2) coincide, and a concrete circuit input keeps
its verdict when its external nullifier is replaced by 9. -/
theorem C10_external_nullifier_unread_witness :
    (([9, 7, 5, 10, 1] : List Nat).length = ([9, 7, 5, 10, 2] : List Nat).length ∧
      ([9, 7, 5, 10, 1] : List Nat).getD 1 0 = ([9, 7, 5, 10, 2] : List Nat).getD 1 0 ∧
      ([9, 7, 5, 10, 1] : List Nat).getD 2 0 = ([9, 7, 5, 10, 2] : List Nat).getD 2 0 ∧
      ([9, 7, 5, 10, 1] : List Nat).getD 3 0 = ([9, 7, 5, 10, 2] : List Nat).getD 3 0 ∧
      alwaysTrueVerifier emptyProof [9, 7, 5, 10, 1] = alwaysTrueVerifier emptyProof [9, 7, 5, 10, 2]) ∧
    (PrivaxProtocol.withdraw (erc20 1) alwaysTrueVerifier 50 emptyProof [9, 7, 5, 10, 1] 5 10 demoBal
        = PrivaxProtocol.withdraw (erc20 1) alwaysTrueVerifier 50 emptyProof [9, 7, 5, 10, 2] 5 10 demoBal ∧
      withdrawCircuitOk cHash cHash3 2 (setExternalNullifier ⟨3, 4, [0, 1], [1, 1], 9, 12, 5, 10, 1⟩ 9)
        = withdrawCircuitOk cHash cHash3 2 ⟨3, 4, [0, 1], [1, 1], 9, 12, 5, 10, 1⟩) :=
  ⟨⟨rfl, rfl, rfl, rfl, rfl⟩,
   C10_external_nullifier_unread (erc20 1) alwaysTrueVerifier 50 emptyProof
     [9, 7, 5, 10, 1] [9, 7, 5, 10, 2] 5 10 demoBal cHash cHash3 2
     ⟨3, 4, [0, 1], [1, 1], 9, 12, 5, 10, 1⟩ 9 rfl rfl rfl rfl rfl⟩
